import Mathlib

/-!
Verification development for the ops-activities backend.

The backend manages an OAuth2 token lifecycle (two deployment variants:
authorization-code with refresh, and client-credentials), proxies and
filters activity records, and keeps an in-memory per-activity deposit
status store.  Network effects are modelled by passing the (optional)
token-endpoint response as an explicit oracle argument; each operation
returns its result, its successor state, and the number of network calls
it made to the token endpoint.
-/

namespace OpsActivities

/-- Truthiness of an optional string as JavaScript evaluates it:
an absent value and the empty string are falsy, every other string is truthy. -/
def strTruthy : Option String → Bool
  | none => false
  | some s => !(s == "")

/-- Whether the second character list is a prefix of the first. -/
def charsStartWith : List Char → List Char → Bool
  | _, [] => true
  | [], _ :: _ => false
  | c :: cs, p :: ps => c == p && charsStartWith cs ps

/-- Whether the second character list occurs as a contiguous run inside the first. -/
def charsContain : List Char → List Char → Bool
  | [], pat => pat.isEmpty
  | c :: cs, pat => charsStartWith (c :: cs) pat || charsContain cs pat

/-- Model of the JavaScript substring test used by the activity filter. -/
def strIncludes (s pat : String) : Bool := charsContain s.data pat.data

/-! ## Token lifecycle, authorization-code variant (src/node.js) -/

/-- The in-memory token storage of the authorization-code variant:
access token, refresh token and absolute expiry instant in milliseconds,
each nullable. -/
structure TokenState where
  accessToken : Option String
  refreshToken : Option String
  expiresAt : Option Int
deriving DecidableEq

/-- Body of a successful token-endpoint response in the
authorization-code variant. -/
structure TokenResponse where
  access_token : String
  refresh_token : Option String
  expires_in : Int
deriving DecidableEq

/-- The freshness check performed on every token access: the access token is
truthy and expiresAt exceeds now plus the five-minute buffer of 300000
milliseconds.  A null expiresAt coerces to 0 in the comparison. -/
def tokenFresh (accessToken : Option String) (expiresAt : Option Int) (now : Int) : Bool :=
  strTruthy accessToken && decide (expiresAt.getD 0 > now + 300000)

/-- exchangeCodeForTokens: posts the authorization code to the token endpoint.
On success it overwrites the whole token storage with the returned access
token, the returned refresh token and the computed expiry; on failure the
storage is untouched and the transport error propagates. -/
def exchangeCodeForTokens (st : TokenState) (now : Int)
    (resp : Option TokenResponse) : Except String TokenResponse × TokenState :=
  match resp with
  | some r =>
      (Except.ok r,
        { accessToken := some r.access_token,
          refreshToken := r.refresh_token,
          expiresAt := some (now + r.expires_in * 1000) })
  | none => (Except.error "token endpoint error", st)

/-- refreshAccessToken: fails at once when no refresh token is stored;
otherwise posts a refresh grant.  On success it stores the new access token
and expiry and keeps the old refresh token unless the response carries a
truthy new one; on failure the storage is untouched and the error propagates. -/
def refreshAccessToken (st : TokenState) (now : Int)
    (resp : Option TokenResponse) : Except String TokenResponse × TokenState :=
  if strTruthy st.refreshToken = false then
    (Except.error "No refresh token available", st)
  else
    match resp with
    | some r =>
        (Except.ok r,
          { accessToken := some r.access_token,
            refreshToken :=
              if strTruthy r.refresh_token then r.refresh_token else st.refreshToken,
            expiresAt := some (now + r.expires_in * 1000) })
    | none => (Except.error "refresh request failed", st)

/-- getValidAccessToken of the authorization-code variant.  A fresh cached
token is returned with no network call.  Otherwise, when a refresh token is
stored, one refresh call is attempted: on success the new access token is
returned, on failure the whole storage is cleared and the call fails with
the authentication error.  With no refresh token the call fails at once with
the authentication error and no network call.  The third component counts
the network calls made to the token endpoint. -/
def getValidAccessToken (st : TokenState) (now : Int)
    (resp : Option TokenResponse) : Except String String × TokenState × Nat :=
  if tokenFresh st.accessToken st.expiresAt now then
    (Except.ok (st.accessToken.getD ""), st, 0)
  else if strTruthy st.refreshToken then
    match refreshAccessToken st now resp with
    | (Except.ok _, st1) => (Except.ok (st1.accessToken.getD ""), st1, 1)
    | (Except.error _, _) =>
        (Except.error "Authentication required", ⟨none, none, none⟩, 1)
  else
    (Except.error "Authentication required", st, 0)

/-- The token storage after the logout endpoint runs: every field null. -/
def logoutTokenState : TokenState := ⟨none, none, none⟩

/-- Body of the health endpoint response (timestamp elided). -/
structure HealthResponse where
  status : String
  authenticated : Bool
deriving DecidableEq

/-- The health endpoint: authenticated is the double negation of the stored
access token, ignoring expiry. -/
def healthEndpoint (st : TokenState) : HealthResponse :=
  { status := "OK", authenticated := strTruthy st.accessToken }

/-- Body of the auth status endpoint response (expiry kept in milliseconds,
ISO formatting elided). -/
structure AuthStatusResponse where
  authenticated : Bool
  expiresAt : Option Int
deriving DecidableEq

/-- The auth status endpoint: authenticated requires a truthy access token
and an expiry strictly after the current instant; the expiry is echoed when
truthy, else null. -/
def authStatusEndpoint (st : TokenState) (now : Int) : AuthStatusResponse :=
  { authenticated := strTruthy st.accessToken && decide (st.expiresAt.getD 0 > now),
    expiresAt :=
      match st.expiresAt with
      | some e => if e ≠ 0 then some e else none
      | none => none }

/-! ## Token lifecycle, client-credentials variant (src/unnamed/part_000) -/

/-- The in-memory token storage of the client-credentials variant:
no refresh token exists in this flow. -/
structure CCTokenState where
  accessToken : Option String
  expiresAt : Option Int
deriving DecidableEq

/-- Body of a successful token-endpoint response in the client-credentials
variant. -/
structure CCTokenResponse where
  access_token : String
  expires_in : Int
deriving DecidableEq

/-- getAccessToken: posts a client-credentials grant.  On success it stores
the access token and computed expiry; on failure the storage is untouched
and the error propagates.  Always exactly one network call. -/
def getAccessToken (st : CCTokenState) (now : Int)
    (resp : Option CCTokenResponse) : Except String String × CCTokenState × Nat :=
  match resp with
  | some r =>
      (Except.ok r.access_token,
        ⟨some r.access_token, some (now + r.expires_in * 1000)⟩, 1)
  | none => (Except.error "token endpoint error", st, 1)

/-- getValidAccessToken of the client-credentials variant: a fresh cached
token is returned with no network call, otherwise one acquisition call is
made; acquisition failure surfaces as the authentication error. -/
def ccGetValidAccessToken (st : CCTokenState) (now : Int)
    (resp : Option CCTokenResponse) : Except String String × CCTokenState × Nat :=
  if tokenFresh st.accessToken st.expiresAt now then
    (Except.ok (st.accessToken.getD ""), st, 0)
  else
    match getAccessToken st now resp with
    | (Except.ok tok, st1, n) => (Except.ok tok, st1, n)
    | (Except.error _, st1, n) => (Except.error "Authentication failed", st1, n)

/-! ## Activity filtering, CLEANING variant (src/unnamed/part_000) -/

/-- The two activity fields the filter inspects; subject is nullable. -/
structure Activity where
  activityType : String
  subject : Option String
deriving DecidableEq

/-- The filter predicate of the CLEANING variant as the code runs it:
activityType strictly equals CLEANING, and the subject is falsy or does not
contain the departure-inventory substring. -/
def cleaningKeep (a : Activity) : Bool :=
  a.activityType == "CLEANING" &&
    (!(strTruthy a.subject) ||
      !(strIncludes (a.subject.getD "") "Inventory Check - Departure"))

/-- The filter rule as the specification words it: activityType equals
CLEANING and the subject does not contain the substring, an absent subject
containing nothing. -/
def specCleaningKeep (a : Activity) : Bool :=
  a.activityType == "CLEANING" &&
    !(strIncludes (a.subject.getD "") "Inventory Check - Departure")

/-- Relevant fields of an upstream activities page; content is absent when
the payload lacks a content array. -/
structure UpstreamPage where
  content : Option (List Activity)
  numberOfElements : Nat
  totalElements : Nat
deriving DecidableEq

/-- Relevant fields of the response the proxy sends back; the three extra
fields are absent (filtered false, options none) when no filtering ran. -/
structure FilteredPage where
  content : Option (List Activity)
  numberOfElements : Nat
  totalElements : Nat
  filtered : Bool
  originalTotalElements : Option Nat
  filterCriteria : Option String
deriving DecidableEq

/-- The human-readable filter description the CLEANING variant attaches. -/
def cleaningFilterCriteria : String :=
  "activityType=CLEANING and excluding \"Inventory Check - Departure\""

/-- The response rewrite of the CLEANING variant: with a content array, the
content is filtered, both element counts become the filtered length, and the
three extra fields are attached, originalTotalElements carrying the upstream
totalElements; without a content array the payload passes through unchanged. -/
def filterActivitiesResponse (originalData : UpstreamPage) : FilteredPage :=
  match originalData.content with
  | some cs =>
      let filteredContent := cs.filter cleaningKeep
      { content := some filteredContent,
        numberOfElements := filteredContent.length,
        totalElements := filteredContent.length,
        filtered := true,
        originalTotalElements := some originalData.totalElements,
        filterCriteria := some cleaningFilterCriteria }
  | none =>
      { content := none,
        numberOfElements := originalData.numberOfElements,
        totalElements := originalData.totalElements,
        filtered := false,
        originalTotalElements := none,
        filterCriteria := none }

/-! ## Deposit store (src/unnamed/part_000) -/

/-- A JSON value as the deposit endpoints may receive it in the request body. -/
inductive JsVal where
  | vBool : Bool → JsVal
  | vStr : String → JsVal
  | vNum : Int → JsVal
  | vNull : JsVal
  | vUndefined : JsVal
deriving DecidableEq

/-- The typeof test for an actual boolean. -/
def JsVal.isBool : JsVal → Bool
  | JsVal.vBool _ => true
  | _ => false

/-- The boolean payload of a JSON value, defaulting to false elsewhere. -/
def JsVal.asBool : JsVal → Bool
  | JsVal.vBool b => b
  | _ => false

/-- A stored deposit record; updatedAt is absent only in the default. -/
structure DepositRecord where
  depositReturnComplete : Bool
  depositTransferredToNewStudio : Bool
  updatedAt : Option String
deriving DecidableEq

/-- An error response: HTTP status and error message. -/
structure ApiError where
  status : Nat
  error : String
deriving DecidableEq

/-- The in-memory deposits map, keyed by activity id. -/
def DepositStore := String → Option DepositRecord

/-- The deposits map at process start: empty. -/
def emptyDeposits : DepositStore := fun _ => none

/-- The default record served for an activity with no stored entry. -/
def defaultDeposit : DepositRecord := ⟨false, false, none⟩

/-- GET activity-deposits: a falsy activityId query parameter yields 400,
otherwise the stored record or the default is served. -/
def getStatus (store : DepositStore) (activityId : Option String) :
    Except ApiError DepositRecord :=
  if strTruthy activityId then
    Except.ok ((store (activityId.getD "")).getD defaultDeposit)
  else
    Except.error ⟨400, "Activity ID is required"⟩

/-- PUT activity-deposits: a falsy activityId yields 400; a non-boolean flag
yields 400; otherwise the record for that id is replaced wholesale with the
two flags and a fresh updatedAt stamp, and the new record is returned.  The
second component is the deposits map after the call. -/
def setStatus (store : DepositStore) (activityId : Option String)
    (drc dts : JsVal) (now : String) :
    Except ApiError DepositRecord × DepositStore :=
  if strTruthy activityId = false then
    (Except.error ⟨400, "Activity ID is required"⟩, store)
  else if drc.isBool = false ∨ dts.isBool = false then
    (Except.error ⟨400,
      "Both depositReturnComplete and depositTransferredToNewStudio must be boolean values"⟩,
      store)
  else
    let newRecord : DepositRecord := ⟨drc.asBool, dts.asBool, some now⟩
    (Except.ok newRecord,
      fun k => if k = activityId.getD "" then some newRecord else store k)

/-- Whether a deposit endpoint result is a validation failure (HTTP 400). -/
def isValidationError {α : Type} : Except ApiError α → Bool
  | Except.error e => e.status == 400
  | Except.ok _ => false

/-! ## Claims -/

/-- Claim C1: whenever the cached access token is set and its expiry lies more
than five minutes after the current time, getValidAccessToken of either
variant returns the cached token, makes zero network calls and leaves the
token state unchanged. -/
theorem claim1_cached_token_reuse :
    (∀ (st : TokenState) (now : Int) (resp : Option TokenResponse) (s : String) (e : Int),
      st.accessToken = some s → s ≠ "" → st.expiresAt = some e → e > now + 300000 →
      getValidAccessToken st now resp = (Except.ok s, st, 0)) ∧
    (∀ (st : CCTokenState) (now : Int) (resp : Option CCTokenResponse) (s : String) (e : Int),
      st.accessToken = some s → s ≠ "" → st.expiresAt = some e → e > now + 300000 →
      ccGetValidAccessToken st now resp = (Except.ok s, st, 0)) := by
  constructor
  · intro st now resp s e hacc hs hexp he
    have hfresh : tokenFresh (some s) st.expiresAt now = true := by
      simp [tokenFresh, hexp, strTruthy, hs, he]
    simp [getValidAccessToken, hacc, hfresh]
  · intro st now resp s e hacc hs hexp he
    have hfresh : tokenFresh (some s) st.expiresAt now = true := by
      simp [tokenFresh, hexp, strTruthy, hs, he]
    simp [ccGetValidAccessToken, hacc, hfresh]

/-- Witness for claim C1 at a concrete state in each variant. -/
theorem claim1_witness :
    getValidAccessToken ⟨some "tok", some "ref", some 600000⟩ 0 none =
      (Except.ok "tok", ⟨some "tok", some "ref", some 600000⟩, 0) ∧
    ccGetValidAccessToken ⟨some "tok", some 600000⟩ 0 none =
      (Except.ok "tok", ⟨some "tok", some 600000⟩, 0) :=
  ⟨claim1_cached_token_reuse.1 ⟨some "tok", some "ref", some 600000⟩ 0 none "tok" 600000
      rfl (by decide) rfl (by decide),
    claim1_cached_token_reuse.2 ⟨some "tok", some 600000⟩ 0 none "tok" 600000
      rfl (by decide) rfl (by decide)⟩

/-- Counterexample to claim C2 as stated: in the authorization-code variant,
a state with a set access token expiring in four minutes but no cached
refresh token makes zero network calls, not exactly one, even though the
token endpoint would have answered. -/
theorem claim2_counterexample :
    ¬ ((getValidAccessToken ⟨some "tok", none, some 240000⟩ 0
        (some ⟨"new", some "r2", 3600⟩)).2.2 = 1) := by decide

/-- Claim C2 amended: with a set access token whose expiry is not more than
five minutes ahead, the client-credentials variant makes exactly one
acquisition call; the authorization-code variant makes exactly one refresh
call when a refresh token is cached and zero calls otherwise. -/
theorem claim2_refresh_call_count :
    (∀ (st : TokenState) (now : Int) (resp : Option TokenResponse),
      strTruthy st.accessToken = true →
      ¬ (st.expiresAt.getD 0 > now + 300000) →
      (getValidAccessToken st now resp).2.2 =
        (if strTruthy st.refreshToken then 1 else 0)) ∧
    (∀ (st : CCTokenState) (now : Int) (resp : Option CCTokenResponse),
      strTruthy st.accessToken = true →
      ¬ (st.expiresAt.getD 0 > now + 300000) →
      (ccGetValidAccessToken st now resp).2.2 = 1) := by
  constructor
  · intro st now resp hacc hexp
    have hfresh : tokenFresh st.accessToken st.expiresAt now = false := by
      simp [tokenFresh, hacc, hexp]
    by_cases hrt : strTruthy st.refreshToken = true
    · have hrt0 : (strTruthy st.refreshToken = false) = False := by simp [hrt]
      cases resp with
      | some r =>
          simp [getValidAccessToken, hfresh, hrt, refreshAccessToken, hrt0]
      | none =>
          simp [getValidAccessToken, hfresh, hrt, refreshAccessToken, hrt0]
    · have hrtf : strTruthy st.refreshToken = false := by
        cases h : strTruthy st.refreshToken
        · rfl
        · exact absurd h hrt
      simp [getValidAccessToken, hfresh, hrtf]
  · intro st now resp hacc hexp
    have hfresh : tokenFresh st.accessToken st.expiresAt now = false := by
      simp [tokenFresh, hacc, hexp]
    cases resp with
    | some r => simp [ccGetValidAccessToken, hfresh, getAccessToken]
    | none => simp [ccGetValidAccessToken, hfresh, getAccessToken]

/-- Witness for the amended claim C2: one refresh call with a cached refresh
token, zero without, and one acquisition call in the client-credentials
variant, all at expiry four minutes ahead of now. -/
theorem claim2_witness :
    (getValidAccessToken ⟨some "tok", some "ref", some 240000⟩ 0 none).2.2 =
      (if strTruthy (some "ref") then 1 else 0) ∧
    (getValidAccessToken ⟨some "tok", none, some 240000⟩ 0 none).2.2 =
      (if strTruthy (none : Option String) then 1 else 0) ∧
    (ccGetValidAccessToken ⟨some "tok", some 240000⟩ 0 none).2.2 = 1 :=
  ⟨claim2_refresh_call_count.1 ⟨some "tok", some "ref", some 240000⟩ 0 none
      (by decide) (by decide),
    claim2_refresh_call_count.1 ⟨some "tok", none, some 240000⟩ 0 none
      (by decide) (by decide),
    claim2_refresh_call_count.2 ⟨some "tok", some 240000⟩ 0 none
      (by decide) (by decide)⟩

/-- Claim C3: in the authorization-code variant, when the cached token is not
fresh, a failing refresh with a cached refresh token clears all three token
fields and fails with the authentication error; with no cached refresh token
the call fails at once with the authentication error; from the cleared state
every call fails with the authentication error whatever the endpoint would
answer; and a successful authorization-code exchange stores a fresh pair. -/
theorem claim3_refresh_failure_clears_state :
    (∀ (st : TokenState) (now : Int),
      tokenFresh st.accessToken st.expiresAt now = false →
      strTruthy st.refreshToken = true →
      getValidAccessToken st now none =
        (Except.error "Authentication required", (⟨none, none, none⟩ : TokenState), 1)) ∧
    (∀ (st : TokenState) (now : Int) (resp : Option TokenResponse),
      tokenFresh st.accessToken st.expiresAt now = false →
      strTruthy st.refreshToken = false →
      getValidAccessToken st now resp =
        (Except.error "Authentication required", st, 0)) ∧
    (∀ (now : Int) (resp : Option TokenResponse),
      getValidAccessToken ⟨none, none, none⟩ now resp =
        (Except.error "Authentication required", (⟨none, none, none⟩ : TokenState), 0)) ∧
    (∀ (now : Int) (r : TokenResponse),
      (exchangeCodeForTokens ⟨none, none, none⟩ now (some r)).2 =
        ⟨some r.access_token, r.refresh_token, some (now + r.expires_in * 1000)⟩) := by
  refine ⟨?_, ?_, ?_, ?_⟩
  · intro st now hfresh hrt
    have hrt0 : (strTruthy st.refreshToken = false) = False := by simp [hrt]
    simp [getValidAccessToken, hfresh, hrt, refreshAccessToken, hrt0]
  · intro st now resp hfresh hrt
    simp [getValidAccessToken, hfresh, hrt]
  · intro now resp
    simp [getValidAccessToken, tokenFresh, strTruthy]
  · intro now r
    simp [exchangeCodeForTokens]

/-- Witness for claim C3 at concrete states. -/
theorem claim3_witness :
    getValidAccessToken ⟨some "tok", some "ref", some 240000⟩ 0 none =
      (Except.error "Authentication required", (⟨none, none, none⟩ : TokenState), 1) ∧
    getValidAccessToken ⟨some "tok", none, some 240000⟩ 0 none =
      (Except.error "Authentication required", (⟨some "tok", none, some 240000⟩ : TokenState), 0) ∧
    getValidAccessToken ⟨none, none, none⟩ 0 (some ⟨"new", some "r2", 3600⟩) =
      (Except.error "Authentication required", (⟨none, none, none⟩ : TokenState), 0) :=
  ⟨claim3_refresh_failure_clears_state.1 ⟨some "tok", some "ref", some 240000⟩ 0
      (by decide) (by decide),
    claim3_refresh_failure_clears_state.2.1 ⟨some "tok", none, some 240000⟩ 0 none
      (by decide) (by decide),
    claim3_refresh_failure_clears_state.2.2.1 0 (some ⟨"new", some "r2", 3600⟩)⟩

/-- The filter predicate the code runs agrees with the predicate the
specification words, because an empty subject never contains the non-empty
departure-inventory substring. -/
theorem cleaningKeep_eq_spec (a : Activity) : cleaningKeep a = specCleaningKeep a := by
  cases h : a.subject with
  | none =>
      have hemp : strIncludes "" "Inventory Check - Departure" = false := by decide
      simp [cleaningKeep, specCleaningKeep, h, strTruthy, hemp]
  | some s =>
      by_cases hs : s = ""
      · subst hs
        have hemp : strIncludes "" "Inventory Check - Departure" = false := by decide
        simp [cleaningKeep, specCleaningKeep, h, strTruthy, hemp]
      · have hbe : (s == "") = false := by simp [hs]
        simp [cleaningKeep, specCleaningKeep, h, strTruthy, hbe]

/-- Claim C4: in the CLEANING variant, for every upstream payload carrying a
content array, the returned content is exactly the elements whose
activityType equals CLEANING and whose subject does not contain the
departure-inventory substring; both element counts equal the filtered
length, filtered is true, originalTotalElements carries the pre-filter
total, and filterCriteria describes the rule. -/
theorem claim4_cleaning_filter :
    ∀ (p : UpstreamPage) (cs : List Activity),
      p.content = some cs →
      (filterActivitiesResponse p).content = some (cs.filter specCleaningKeep) ∧
      (filterActivitiesResponse p).numberOfElements = (cs.filter specCleaningKeep).length ∧
      (filterActivitiesResponse p).totalElements = (cs.filter specCleaningKeep).length ∧
      (filterActivitiesResponse p).filtered = true ∧
      (filterActivitiesResponse p).originalTotalElements = some p.totalElements ∧
      (filterActivitiesResponse p).filterCriteria = some cleaningFilterCriteria := by
  intro p cs hc
  have hfil : cs.filter cleaningKeep = cs.filter specCleaningKeep := by
    apply List.filter_congr
    intro a _
    exact cleaningKeep_eq_spec a
  simp [filterActivitiesResponse, hc, hfil]

/-- Witness for claim C4 at the concrete three-element upstream page from the
specification: only the CLEANING activity with an unrelated subject stays,
the counts drop to one, and the original count three is preserved. -/
theorem claim4_witness :
    (filterActivitiesResponse
        ⟨some [⟨"CLEANING", some "x"⟩, ⟨"CLEANING", some "Inventory Check - Departure"⟩,
          ⟨"OTHER", some "x"⟩], 3, 3⟩).content = some [⟨"CLEANING", some "x"⟩] ∧
    (filterActivitiesResponse
        ⟨some [⟨"CLEANING", some "x"⟩, ⟨"CLEANING", some "Inventory Check - Departure"⟩,
          ⟨"OTHER", some "x"⟩], 3, 3⟩).totalElements = 1 ∧
    (filterActivitiesResponse
        ⟨some [⟨"CLEANING", some "x"⟩, ⟨"CLEANING", some "Inventory Check - Departure"⟩,
          ⟨"OTHER", some "x"⟩], 3, 3⟩).originalTotalElements = some 3 ∧
    (filterActivitiesResponse
        ⟨some [⟨"CLEANING", some "x"⟩, ⟨"CLEANING", some "Inventory Check - Departure"⟩,
          ⟨"OTHER", some "x"⟩], 3, 3⟩).filtered = true := by
  obtain ⟨h1, h2, h3, h4, h5, h6⟩ := claim4_cleaning_filter
    ⟨some [⟨"CLEANING", some "x"⟩, ⟨"CLEANING", some "Inventory Check - Departure"⟩,
      ⟨"OTHER", some "x"⟩], 3, 3⟩
    [⟨"CLEANING", some "x"⟩, ⟨"CLEANING", some "Inventory Check - Departure"⟩,
      ⟨"OTHER", some "x"⟩] rfl
  refine ⟨?_, ?_, ?_, h4⟩
  · rw [h1]; decide
  · rw [h3]; decide
  · rw [h5]

/-- Claim C5: a successful setStatus with boolean flags followed by getStatus
on the same id returns exactly those flags with the stamped update time, and
repeating the same setStatus yields the same flags with the new stamp. -/
theorem claim5_set_then_get :
    ∀ (store : DepositStore) (a : String) (r t : Bool) (now now2 : String),
      a ≠ "" →
      (setStatus store (some a) (JsVal.vBool r) (JsVal.vBool t) now).1 =
        Except.ok ⟨r, t, some now⟩ ∧
      getStatus (setStatus store (some a) (JsVal.vBool r) (JsVal.vBool t) now).2 (some a) =
        Except.ok ⟨r, t, some now⟩ ∧
      (setStatus (setStatus store (some a) (JsVal.vBool r) (JsVal.vBool t) now).2
          (some a) (JsVal.vBool r) (JsVal.vBool t) now2).1 =
        Except.ok ⟨r, t, some now2⟩ ∧
      getStatus (setStatus (setStatus store (some a) (JsVal.vBool r) (JsVal.vBool t) now).2
          (some a) (JsVal.vBool r) (JsVal.vBool t) now2).2 (some a) =
        Except.ok ⟨r, t, some now2⟩ := by
  intro store a r t now now2 ha
  refine ⟨?_, ?_, ?_, ?_⟩ <;>
    simp [setStatus, getStatus, strTruthy, ha, JsVal.isBool, JsVal.asBool]

/-- Witness for claim C5 at a concrete id, flag pair and pair of stamps. -/
theorem claim5_witness :
    (setStatus emptyDeposits (some "A1") (JsVal.vBool true) (JsVal.vBool false) "t0").1 =
      Except.ok ⟨true, false, some "t0"⟩ ∧
    getStatus (setStatus emptyDeposits (some "A1") (JsVal.vBool true) (JsVal.vBool false)
        "t0").2 (some "A1") = Except.ok ⟨true, false, some "t0"⟩ ∧
    (setStatus (setStatus emptyDeposits (some "A1") (JsVal.vBool true) (JsVal.vBool false)
          "t0").2 (some "A1") (JsVal.vBool true) (JsVal.vBool false) "t1").1 =
      Except.ok ⟨true, false, some "t1"⟩ ∧
    getStatus (setStatus (setStatus emptyDeposits (some "A1") (JsVal.vBool true)
          (JsVal.vBool false) "t0").2 (some "A1") (JsVal.vBool true) (JsVal.vBool false)
        "t1").2 (some "A1") = Except.ok ⟨true, false, some "t1"⟩ :=
  claim5_set_then_get emptyDeposits "A1" true false "t0" "t1" (by decide)

/-- Claim C6: a setStatus call in which either flag is not an actual boolean
fails with a validation error carrying HTTP status 400 and leaves the
deposit store entirely unchanged, whatever the activity id. -/
theorem claim6_nonboolean_rejected :
    ∀ (store : DepositStore) (aid : Option String) (drc dts : JsVal) (now : String),
      drc.isBool = false ∨ dts.isBool = false →
      isValidationError (setStatus store aid drc dts now).1 = true ∧
      (setStatus store aid drc dts now).2 = store := by
  intro store aid drc dts now hnb
  by_cases hid : strTruthy aid = true
  · have hid0 : (strTruthy aid = false) = False := by simp [hid]
    simp [setStatus, hid0, hnb, isValidationError]
  · have hidf : strTruthy aid = false := by
      cases h : strTruthy aid
      · rfl
      · exact absurd h hid
    simp [setStatus, hidf, isValidationError]

/-- Witness for claim C6: the string true is rejected with status 400 and the
empty store survives unchanged. -/
theorem claim6_witness :
    isValidationError (setStatus emptyDeposits (some "A1") (JsVal.vStr "true")
        (JsVal.vBool false) "t0").1 = true ∧
    (setStatus emptyDeposits (some "A1") (JsVal.vStr "true")
        (JsVal.vBool false) "t0").2 = emptyDeposits :=
  claim6_nonboolean_rejected emptyDeposits (some "A1") (JsVal.vStr "true")
    (JsVal.vBool false) "t0" (Or.inl rfl)

/-- Claim C7: getStatus on a non-empty id with no stored record returns the
default record with both flags false and no update stamp; a missing or empty
activityId parameter yields the 400 required-id error. -/
theorem claim7_default_and_missing_id :
    (∀ (store : DepositStore) (a : String),
      store a = none → a ≠ "" →
      getStatus store (some a) = Except.ok ⟨false, false, none⟩) ∧
    (∀ (store : DepositStore),
      getStatus store none = Except.error ⟨400, "Activity ID is required"⟩ ∧
      getStatus store (some "") = Except.error ⟨400, "Activity ID is required"⟩) := by
  constructor
  · intro store a habs ha
    simp [getStatus, strTruthy, ha, habs, defaultDeposit]
  · intro store
    constructor
    · simp [getStatus, strTruthy]
    · simp [getStatus, strTruthy]

/-- Witness for claim C7 on the empty store at a concrete id. -/
theorem claim7_witness :
    getStatus emptyDeposits (some "A1") = Except.ok ⟨false, false, none⟩ ∧
    getStatus emptyDeposits none = Except.error ⟨400, "Activity ID is required"⟩ ∧
    getStatus emptyDeposits (some "") = Except.error ⟨400, "Activity ID is required"⟩ :=
  ⟨claim7_default_and_missing_id.1 emptyDeposits "A1" rfl (by decide),
    (claim7_default_and_missing_id.2 emptyDeposits).1,
    (claim7_default_and_missing_id.2 emptyDeposits).2⟩

/-- The token-state invariant of the authorization-code variant: a stored
access token comes with a stored expiry. -/
def tokenInvariant (st : TokenState) : Prop :=
  st.accessToken.isSome = true → st.expiresAt.isSome = true

/-- The token-state invariant of the client-credentials variant. -/
def ccTokenInvariant (st : CCTokenState) : Prop :=
  st.accessToken.isSome = true → st.expiresAt.isSome = true

/-- Claim C8: every token-state mutation preserves the invariant that a
present access token comes with a present expiry: authorization-code
exchange, refresh, the full getValidAccessToken (including its clearing on
refresh failure), logout, and client-credentials acquisition. -/
theorem claim8_invariant_preserved :
    (∀ (st : TokenState) (now : Int) (resp : Option TokenResponse),
      tokenInvariant st →
      tokenInvariant (exchangeCodeForTokens st now resp).2 ∧
      tokenInvariant (refreshAccessToken st now resp).2 ∧
      tokenInvariant (getValidAccessToken st now resp).2.1) ∧
    tokenInvariant logoutTokenState ∧
    (∀ (st : CCTokenState) (now : Int) (resp : Option CCTokenResponse),
      ccTokenInvariant st →
      ccTokenInvariant (getAccessToken st now resp).2.1 ∧
      ccTokenInvariant (ccGetValidAccessToken st now resp).2.1) := by
  refine ⟨?_, ?_, ?_⟩
  · intro st now resp hinv
    refine ⟨?_, ?_, ?_⟩
    · cases resp with
      | some r => intro _; simp [exchangeCodeForTokens]
      | none => simpa [exchangeCodeForTokens] using hinv
    · by_cases hrt : strTruthy st.refreshToken = false
      · simpa [refreshAccessToken, hrt] using hinv
      · cases resp with
        | some r =>
            intro _; simp [refreshAccessToken, hrt]
        | none =>
            simpa [refreshAccessToken, hrt] using hinv
    · by_cases hfresh : tokenFresh st.accessToken st.expiresAt now = true
      · simpa [getValidAccessToken, hfresh] using hinv
      · have hf : tokenFresh st.accessToken st.expiresAt now = false := by
          cases h : tokenFresh st.accessToken st.expiresAt now
          · rfl
          · exact absurd h hfresh
        by_cases hrt : strTruthy st.refreshToken = true
        · have hrt0 : (strTruthy st.refreshToken = false) = False := by simp [hrt]
          cases resp with
          | some r =>
              intro _; simp [getValidAccessToken, hf, hrt, refreshAccessToken, hrt0]
          | none =>
              intro h; simp [getValidAccessToken, hf, hrt, refreshAccessToken, hrt0] at h
        · have hrtf : strTruthy st.refreshToken = false := by
            cases h : strTruthy st.refreshToken
            · rfl
            · exact absurd h hrt
          simpa [getValidAccessToken, hf, hrtf] using hinv
  · intro h
    simp [logoutTokenState] at h
  · intro st now resp hinv
    constructor
    · cases resp with
      | some r => intro _; simp [getAccessToken]
      | none => simpa [getAccessToken] using hinv
    · by_cases hfresh : tokenFresh st.accessToken st.expiresAt now = true
      · simpa [ccGetValidAccessToken, hfresh] using hinv
      · have hf : tokenFresh st.accessToken st.expiresAt now = false := by
          cases h : tokenFresh st.accessToken st.expiresAt now
          · rfl
          · exact absurd h hfresh
        cases resp with
        | some r => intro _; simp [ccGetValidAccessToken, hf, getAccessToken]
        | none => simpa [ccGetValidAccessToken, hf, getAccessToken] using hinv

/-- Witness for claim C8 at concrete states and responses in each variant. -/
theorem claim8_witness :
    tokenInvariant (exchangeCodeForTokens ⟨none, none, none⟩ 0
      (some ⟨"a", some "r", 3600⟩)).2 ∧
    tokenInvariant (refreshAccessToken ⟨some "a", some "r", some 240000⟩ 0 none).2 ∧
    tokenInvariant (getValidAccessToken ⟨some "a", some "r", some 240000⟩ 0 none).2.1 ∧
    ccTokenInvariant (ccGetValidAccessToken ⟨some "a", some 240000⟩ 0
      (some ⟨"b", 3600⟩)).2.1 :=
  ⟨(claim8_invariant_preserved.1 ⟨none, none, none⟩ 0 (some ⟨"a", some "r", 3600⟩)
      (by intro h; simp at h)).1,
    (claim8_invariant_preserved.1 ⟨some "a", some "r", some 240000⟩ 0 none
      (by intro _; rfl)).2.1,
    (claim8_invariant_preserved.1 ⟨some "a", some "r", some 240000⟩ 0 none
      (by intro _; rfl)).2.2,
    (claim8_invariant_preserved.2.2 ⟨some "a", some 240000⟩ 0 (some ⟨"b", 3600⟩)
      (by intro _; rfl)).2⟩

/-- Claim C9: the health endpoint reports authenticated exactly on a truthy
stored access token, ignoring expiry; in particular a state whose expiry is
already past still reports authenticated on health while the auth status
endpoint reports unauthenticated for the same state. -/
theorem claim9_health_vs_status :
    ∀ (st : TokenState) (now : Int),
      (healthEndpoint st).authenticated = strTruthy st.accessToken ∧
      (authStatusEndpoint st now).authenticated =
        (strTruthy st.accessToken && decide (st.expiresAt.getD 0 > now)) ∧
      (strTruthy st.accessToken = true → st.expiresAt.getD 0 ≤ now →
        (healthEndpoint st).authenticated = true ∧
        (authStatusEndpoint st now).authenticated = false) := by
  intro st now
  refine ⟨rfl, rfl, ?_⟩
  intro hacc hpast
  constructor
  · simp [healthEndpoint, hacc]
  · have hd : decide (st.expiresAt.getD 0 > now) = false := by
      simp [Int.not_lt.mpr hpast]
    simp [authStatusEndpoint, hd]

/-- Witness for claim C9 at a state whose expiry is one millisecond in the
past. -/
theorem claim9_witness :
    (healthEndpoint ⟨some "tok", none, some 99⟩).authenticated = true ∧
    (authStatusEndpoint ⟨some "tok", none, some 99⟩ 100).authenticated = false :=
  (claim9_health_vs_status ⟨some "tok", none, some 99⟩ 100).2.2 (by decide) (by decide)

/-- Claim C10: setStatus on one activity id leaves the deposit entry of every
other id unchanged, whether the call succeeds or fails. -/
theorem claim10_set_status_frame :
    ∀ (store : DepositStore) (a b : String) (drc dts : JsVal) (now : String),
      a ≠ b →
      (setStatus store (some a) drc dts now).2 b = store b := by
  intro store a b drc dts now hab
  by_cases ha : a = ""
  · subst ha
    simp [setStatus, strTruthy]
  · by_cases hnb : drc.isBool = false ∨ dts.isBool = false
    · simp [setStatus, strTruthy, ha, hnb]
    · have hba : ¬ b = a := fun h => hab h.symm
      simp [setStatus, strTruthy, ha, hnb, hba]

/-- Witness for claim C10: writing id A1 leaves the entry of id B2 absent in
the previously empty store. -/
theorem claim10_witness :
    (setStatus emptyDeposits (some "A1") (JsVal.vBool true) (JsVal.vBool true)
        "t0").2 "B2" = emptyDeposits "B2" :=
  claim10_set_status_frame emptyDeposits "A1" "B2" (JsVal.vBool true) (JsVal.vBool true)
    "t0" (by decide)

end OpsActivities
